import Mathlib

/-!
# Verification of the gas-safety alert backend (file-backed variant)

Shallow embedding of `src/backend.js`: an Express server over a JSON file
store `{ employees: [], alerts: [] }`.  Pure handler logic is translated to
Lean functions; the effectful parts are made explicit:

* `Date.now()` / `new Date().toISOString()` — handlers take the current
  time as an argument (`now : String` for ISO stamps; alert timestamps are
  modelled as their numeric millisecond value `Nat`, since the only
  computation on them, the `since` filter of `GET /alerts`, compares the
  parsed date values numerically).
* `makeId` (`Date.now().toString(36) + Math.random()...`) — handlers take
  the generated identifier as an argument.
* `JSON.parse(new Date(...))`-style host date parsing — `getAlerts` takes
  the parse function as an argument (`String → Option Nat`, `none` for an
  invalid date).
* request bodies — structures of `Option String` fields: `none` models an
  absent JSON key, `some s` a string value.  The embedding models the
  string-typed stores and requests that the handlers themselves create;
  JS truthiness on such values (`!x`, `x || d`, `a && b`) is translated
  by the explicit helpers `isBlank`, `jsOrStr`, `jsAndStr`.

The file store `db.json` is the `Db` structure; reading and rewriting the
whole file on each mutation means each handler is a function
`... → Db → (status × body × Db)`.
-/

/-! ## SHA-256 (`crypto.createHash("sha256").update(...).digest("hex")`) -/

namespace SHA256

/-- Truncate to a 32-bit word, as every JS/crypto 32-bit operation does. -/
def w32 (n : Nat) : Nat := n % 4294967296

/-- Right-rotation of a 32-bit word. -/
def rotr (x k : Nat) : Nat := w32 ((x >>> k) ||| (x <<< (32 - k)))

/-- Round constants: fractional parts of the cube roots of the first 64 primes. -/
def K : List Nat :=
  [1116352408, 1899447441, 3049323471, 3921009573, 961987163,
   1508970993, 2453635748, 2870763221, 3624381080, 310598401,
   607225278, 1426881987, 1925078388, 2162078206, 2614888103,
   3248222580, 3835390401, 4022224774, 264347078, 604807628,
   770255983, 1249150122, 1555081692, 1996064986, 2554220882,
   2821834349, 2952996808, 3210313671, 3336571891, 3584528711,
   113926993, 338241895, 666307205, 773529912, 1294757372,
   1396182291, 1695183700, 1986661051, 2177026350, 2456956037,
   2730485921, 2820302411, 3259730800, 3345764771, 3516065817,
   3600352804, 4094571909, 275423344, 430227734, 506948616,
   659060556, 883997877, 958139571, 1322822218, 1537002063,
   1747873779, 1955562222, 2024104815, 2227730452, 2361852424,
   2428436474, 2756734187, 3204031479, 3329325298]

/-- Initial hash state: fractional parts of the square roots of the first 8 primes. -/
def H0 : List Nat :=
  [1779033703, 3144134277, 1013904242, 2773480762,
   1359893119, 2600822924, 528734635, 1541459225]

/-- UTF-8 encoding of one code point (what `update` does to a JS string). -/
def utf8EncodeChar (c : Nat) : List Nat :=
  if c < 0x80 then [c]
  else if c < 0x800 then
    [0xC0 ||| (c >>> 6), 0x80 ||| (c &&& 0x3F)]
  else if c < 0x10000 then
    [0xE0 ||| (c >>> 12), 0x80 ||| ((c >>> 6) &&& 0x3F), 0x80 ||| (c &&& 0x3F)]
  else
    [0xF0 ||| (c >>> 18), 0x80 ||| ((c >>> 12) &&& 0x3F),
     0x80 ||| ((c >>> 6) &&& 0x3F), 0x80 ||| (c &&& 0x3F)]

/-- UTF-8 bytes of a string. -/
def utf8Encode (s : String) : List Nat :=
  (s.data.map (fun c => utf8EncodeChar c.toNat)).flatten

/-- Big-endian 8-byte encoding of a length-in-bits. -/
def toBE64 (n : Nat) : List Nat :=
  (List.range 8).map (fun i => (n >>> (8 * (7 - i))) % 256)

/-- SHA-256 padding: `0x80`, zeros to 56 mod 64, then the 64-bit bit length. -/
def pad (msg : List Nat) : List Nat :=
  msg ++ [0x80] ++ List.replicate ((120 - (msg.length + 1) % 64) % 64) 0
      ++ toBE64 (msg.length * 8)

/-- Big-endian 32-bit words from bytes. -/
def bytesToWords : List Nat → List Nat
  | a :: b :: c :: d :: rest =>
      (((a * 256 + b) * 256 + c) * 256 + d) :: bytesToWords rest
  | _ => []

/-- Split into 64-byte chunks (fuel-driven so that it reduces definitionally;
`fuel = l.length` always suffices). -/
def chunksAux : Nat → List Nat → List (List Nat)
  | 0, _ => []
  | _, [] => []
  | fuel + 1, l => l.take 64 :: chunksAux fuel (l.drop 64)

def chunks (l : List Nat) : List (List Nat) := chunksAux l.length l

def s0 (x : Nat) : Nat := rotr x 7 ^^^ rotr x 18 ^^^ (x >>> 3)

def s1 (x : Nat) : Nat := rotr x 17 ^^^ rotr x 19 ^^^ (x >>> 10)

/-- `l[i]`, defaulting to 0 (indices are always in range here). -/
def nth (l : List Nat) (i : Nat) : Nat := (l.get? i).getD 0

/-- Extend the 16 message words to the 64-entry schedule:
`w[i] = w[i-16] + s0 w[i-15] + w[i-7] + s1 w[i-2]`. -/
def schedule (w16 : List Nat) : List Nat :=
  (List.range 48).foldl
    (fun w _ =>
      w ++ [w32 (nth w (w.length - 16) + s0 (nth w (w.length - 15)) +
                 nth w (w.length - 7) + s1 (nth w (w.length - 2)))])
    w16

/-- The eight working registers of the compression loop. -/
structure Regs where
  a : Nat
  b : Nat
  c : Nat
  d : Nat
  e : Nat
  f : Nat
  g : Nat
  h : Nat
deriving Repr, DecidableEq

/-- One round of the compression function. -/
def compress1 (r : Regs) (ki wi : Nat) : Regs :=
  let bigS1 := rotr r.e 6 ^^^ rotr r.e 11 ^^^ rotr r.e 25
  let ch := (r.e &&& r.f) ^^^ ((r.e ^^^ 0xffffffff) &&& r.g)
  let t1 := w32 (r.h + bigS1 + ch + ki + wi)
  let bigS0 := rotr r.a 2 ^^^ rotr r.a 13 ^^^ rotr r.a 22
  let maj := (r.a &&& r.b) ^^^ (r.a &&& r.c) ^^^ (r.b &&& r.c)
  let t2 := w32 (bigS0 + maj)
  ⟨w32 (t1 + t2), r.a, r.b, r.c, w32 (r.d + t1), r.e, r.f, r.g⟩

/-- Process one 64-byte chunk into the running hash state. -/
def processChunk (hs : List Nat) (chunk : List Nat) : List Nat :=
  let w := schedule (bytesToWords chunk)
  let init : Regs :=
    ⟨nth hs 0, nth hs 1, nth hs 2, nth hs 3, nth hs 4, nth hs 5, nth hs 6, nth hs 7⟩
  let r := (K.zip w).foldl (fun r p => compress1 r p.1 p.2) init
  [w32 (nth hs 0 + r.a), w32 (nth hs 1 + r.b), w32 (nth hs 2 + r.c),
   w32 (nth hs 3 + r.d), w32 (nth hs 4 + r.e), w32 (nth hs 5 + r.f),
   w32 (nth hs 6 + r.g), w32 (nth hs 7 + r.h)]

def hexDigit (n : Nat) : Char :=
  if n < 10 then Char.ofNat (48 + n) else Char.ofNat (87 + n)

/-- Lowercase zero-padded 8-hex-digit rendering of a 32-bit word. -/
def toHex8 (n : Nat) : String :=
  String.mk ((List.range 8).map (fun i => hexDigit ((n >>> (4 * (7 - i))) % 16)))

/-- The hex digest of a string, as `digest("hex")` returns it. -/
def sha256Hex (s : String) : String :=
  let hs := (chunks (pad (utf8Encode s))).foldl processChunk H0
  String.join (hs.map toHex8)

end SHA256

/-- `hashPassword` of `src/backend.js`:
`crypto.createHash("sha256").update(String(password)).digest("hex")`. -/
def hashPassword (password : String) : String :=
  SHA256.sha256Hex password

/-! ## JS truthiness helpers -/

/-- JS `!x` on an optional string field: true for an absent key (`undefined`)
and for `""`, the falsy string-field cases. -/
def isBlank : Option String → Bool
  | none => true
  | some s => s == ""

/-- JS `x || d` on an optional string field: `d` when the field is absent or
empty (falsy), the field's value otherwise. -/
def jsOrStr (o : Option String) (d : String) : String :=
  match o with
  | none => d
  | some s => if s = "" then d else s

/-- JS `a && b` on strings: `a` when falsy (empty), else `b`. -/
def jsAndStr (a b : String) : String :=
  if a = "" then a else b

/-- JS `toLowerCase()`, character by character (kernel-reducible, unlike the
library's `String.toLower`; the handlers only lowercase ASCII emails). -/
def jsToLower (s : String) : String :=
  String.mk (s.data.map Char.toLower)

/-- `makeId`: prefix ++ `Date.now().toString(36)` ++ six random base-36
digits.  The two nondeterministic pieces are explicit arguments. -/
def makeId (pre time36 rand6 : String) : String :=
  pre ++ time36 ++ rand6

/-! ## Data model (`data/db.json`) -/

/-- A stored employee record.  `Option` fields model keys that handlers set
to `null` (the clock/login stamps) or never set at all: `passwordHash` is
absent on the `POST /employees` creation path, `updatedAt` until the first
PATCH. -/
structure Employee where
  _id : String
  name : String
  email : String
  role : String
  empId : String
  passwordHash : Option String
  createdAt : String
  lastLogin : Option String
  lastLogout : Option String
  clockIn : Option String
  clockOut : Option String
  status : String
  alarmTriggered : Bool
  updatedAt : Option String
deriving Repr, DecidableEq

/-- A stored alert.  `status` is set only on the leak-triggered creation
path; `timestamp` is the record's creation time as its numeric millisecond
value (the handlers write `toISOString()` and the only reader parses it
back with `new Date`). -/
structure Alert where
  _id : String
  employeeId : String
  type : String
  status : Option String
  location : String
  timestamp : Nat
deriving Repr, DecidableEq

/-- The whole-file JSON store `{ employees, alerts }`. -/
structure Db where
  employees : List Employee
  alerts : List Alert
deriving Repr, DecidableEq

/-! ## POST /register -/

structure RegisterBody where
  name : Option String
  email : Option String
  password : Option String
  role : Option String
  empId : Option String
deriving Repr, DecidableEq

/-- The destructuring default `role = "truck-driver" && "deport-employee"`. -/
def defaultRegisterRole : String :=
  jsAndStr "truck-driver" "deport-employee"

/-- The `out` object of a successful registration (no password hash). -/
structure RegisterOut where
  _id : String
  email : String
  role : String
  empId : String
  name : String
deriving Repr, DecidableEq

inductive RegisterResponse where
  | invalid (errors : List String)
  | conflict (message : String)
  | ok (user : RegisterOut)
deriving Repr, DecidableEq

/-- The `POST /register` handler.  `uid` is the generated `makeId("u_")`
value, `now` the ISO creation stamp. -/
def register (b : RegisterBody) (db : Db) (uid now : String) :
    Nat × RegisterResponse × Db :=
  let errors :=
    (if isBlank b.name then ["name required"] else []) ++
    (if isBlank b.email then ["email required"] else []) ++
    (if isBlank b.password then ["password required"] else []) ++
    (if isBlank b.empId then ["empId required"] else [])
  if errors ≠ [] then (400, .invalid errors, db)
  else
    let name := b.name.getD ""
    let email := b.email.getD ""
    let password := b.password.getD ""
    let empId := b.empId.getD ""
    let role := b.role.getD defaultRegisterRole
    if db.employees.any (fun e => jsToLower e.email == jsToLower email) then
      (409, .conflict "Email already registered", db)
    else
      let employee : Employee :=
        { _id := uid, name := name, email := email, role := role, empId := empId,
          passwordHash := some (hashPassword password), createdAt := now,
          lastLogin := none, lastLogout := none, clockIn := none, clockOut := none,
          status := "safe", alarmTriggered := false, updatedAt := none }
      (201, .ok { _id := uid, email := email, role := role, empId := empId, name := name },
       { db with employees := db.employees ++ [employee] })

/-! ## POST /login -/

/-- `db.employees.find(e => e.email?.toLowerCase() === email.toLowerCase())`. -/
def findUser (em : String) : List Employee → Option Employee
  | [] => none
  | e :: rest => if jsToLower e.email = jsToLower em then some e else findUser em rest

/-- Mutating the object `find` returned and rewriting the whole file is, for
a pure store, replacing the first matching element. -/
def setUser (em : String) (u : Employee) : List Employee → List Employee
  | [] => []
  | e :: rest =>
    if jsToLower e.email = jsToLower em then u :: rest else e :: setUser em u rest

structure LoginOut where
  _id : String
  email : String
  role : String
  empId : String
  name : String
  lastLogin : Option String
deriving Repr, DecidableEq

inductive LoginResponse where
  | err (message : String)
  | ok (user : LoginOut)
deriving Repr, DecidableEq

/-- The `POST /login` handler; `now` is the `lastLogin` stamp. -/
def login (email password : Option String) (db : Db) (now : String) :
    Nat × LoginResponse × Db :=
  if isBlank email || isBlank password then
    (400, .err "Email and password required", db)
  else
    let em := email.getD ""
    let pw := password.getD ""
    match findUser em db.employees with
    | none => (400, .err "Invalid credentials", db)
    | some user =>
      if user.passwordHash = some (hashPassword pw) then
        (200,
         .ok { _id := user._id, email := user.email, role := user.role,
               empId := user.empId, name := user.name, lastLogin := some now },
         { db with employees := setUser em { user with lastLogin := some now } db.employees })
      else (400, .err "Invalid credentials", db)

/-! ## GET /employees -/

/-- The `GET /employees` handler: the raw employees array. -/
def getEmployees (db : Db) : Nat × List Employee :=
  (200, db.employees)

/-! ## POST /employees -/

structure CreateEmployeeBody where
  name : Option String
  email : Option String
  role : Option String
  empId : Option String
deriving Repr, DecidableEq

inductive CreateEmployeeResponse where
  | err (message : String)
  | created (employee : Employee)
deriving Repr, DecidableEq

/-- The `POST /employees` handler (admin path): no duplicate-email check,
no password, role defaulting to `"employee"`, response the bare record. -/
def createEmployee (b : CreateEmployeeBody) (db : Db) (uid now : String) :
    Nat × CreateEmployeeResponse × Db :=
  if isBlank b.name || isBlank b.email || isBlank b.empId then
    (400, .err "name,email,empId required", db)
  else
    let employee : Employee :=
      { _id := uid, name := b.name.getD "", email := b.email.getD "",
        role := b.role.getD "employee", empId := b.empId.getD "",
        passwordHash := none, createdAt := now,
        lastLogin := none, lastLogout := none, clockIn := none, clockOut := none,
        status := "safe", alarmTriggered := false, updatedAt := none }
    (201, .created employee, { db with employees := db.employees ++ [employee] })

/-! ## PATCH /employees/:id -/

/-- A PATCH body.  Each field is a JSON key that may be present or absent;
the handlers read string values of these keys.  The body's `location` key is
consulted only by the leak-alert side effect (it also lands on the stored
object via the spread, but nothing ever reads it back, so the `Employee`
model omits it). -/
structure Patch where
  _id : Option String
  name : Option String
  email : Option String
  role : Option String
  empId : Option String
  passwordHash : Option String
  createdAt : Option String
  lastLogin : Option String
  lastLogout : Option String
  clockIn : Option String
  clockOut : Option String
  status : Option String
  location : Option String
deriving Repr, DecidableEq

/-- The empty PATCH body `{}`. -/
def Patch.empty : Patch :=
  { _id := none, name := none, email := none, role := none, empId := none,
    passwordHash := none, createdAt := none, lastLogin := none,
    lastLogout := none, clockIn := none, clockOut := none, status := none,
    location := none }

/-- `{ ...db.employees[idx], ...patch, updatedAt: now }`: every key present
in the patch overrides the stored one; `updatedAt` is stamped last. -/
def applyPatch (e : Employee) (p : Patch) (now : String) : Employee :=
  { _id := p._id.getD e._id,
    name := p.name.getD e.name,
    email := p.email.getD e.email,
    role := p.role.getD e.role,
    empId := p.empId.getD e.empId,
    passwordHash := match p.passwordHash with | some h => some h | none => e.passwordHash,
    createdAt := p.createdAt.getD e.createdAt,
    lastLogin := match p.lastLogin with | some v => some v | none => e.lastLogin,
    lastLogout := match p.lastLogout with | some v => some v | none => e.lastLogout,
    clockIn := match p.clockIn with | some v => some v | none => e.clockIn,
    clockOut := match p.clockOut with | some v => some v | none => e.clockOut,
    status := p.status.getD e.status,
    alarmTriggered := e.alarmTriggered,
    updatedAt := some now }

/-- `findIndex` plus in-place assignment at the found index: replace the
first employee matching `pr` by `f` of it, returning the new list and the
merged record, or `none` when `findIndex` gives `-1`. -/
def patchFirst (pr : Employee → Bool) (f : Employee → Employee) :
    List Employee → Option (List Employee × Employee)
  | [] => none
  | e :: rest =>
    if pr e then some (f e :: rest, f e)
    else
      match patchFirst pr f rest with
      | none => none
      | some (l, m) => some (e :: l, m)

/-- `e._id === id || e.empId === id`. -/
def patchMatches (id : String) (e : Employee) : Bool :=
  e._id == id || e.empId == id

inductive PatchResponse where
  | notFound (message : String)
  | ok (employee : Employee)
deriving Repr, DecidableEq

/-- The `PATCH /employees/:id` handler.  `alertId` is the generated
`makeId("a_")` value used if a leak alert fires, `now` the ISO update stamp
and `nowMs` its numeric time (the alert's stored timestamp). -/
def patchEmployee (id : String) (p : Patch) (db : Db) (alertId now : String)
    (nowMs : Nat) : Nat × PatchResponse × Db :=
  match patchFirst (patchMatches id) (fun e => applyPatch e p now) db.employees with
  | none => (404, .notFound "Employee not found", db)
  | some (emps, merged) =>
    let db1 : Db := { db with employees := emps }
    if p.status = some "leak" then
      let alert : Alert :=
        { _id := alertId, employeeId := merged._id, type := "leak",
          status := some "leak", location := jsOrStr p.location "unknown",
          timestamp := nowMs }
      (200, .ok merged, { db1 with alerts := db1.alerts ++ [alert] })
    else (200, .ok merged, db1)

/-! ## GET /alerts -/

/-- The `GET /alerts` handler.  `since` is the raw query value (`none` when
the parameter is missing; a present-but-empty value is falsy and skips the
filter).  `parseDate` is the host's `new Date(...)` parser, `none` standing
for an invalid date; alert timestamps are already stored as their numeric
time, so the filter compares numbers, as `Date >=` does. -/
def getAlerts (since : Option String) (parseDate : String → Option Nat) (db : Db) :
    Nat × List Alert :=
  match since with
  | none => (200, db.alerts)
  | some s =>
    if s = "" then (200, db.alerts)
    else
      match parseDate s with
      | none => (200, db.alerts)
      | some t => (200, db.alerts.filter (fun a => decide (a.timestamp ≥ t)))

/-! ## POST /alerts -/

structure AlertBody where
  employeeId : Option String
  type : Option String
  location : Option String
deriving Repr, DecidableEq

inductive AlertCreateResponse where
  | err (message : String)
  | created (alert : Alert)
deriving Repr, DecidableEq

/-- The `POST /alerts` handler; the created alert has no `status` key. -/
def createAlert (b : AlertBody) (db : Db) (alertId : String) (nowMs : Nat) :
    Nat × AlertCreateResponse × Db :=
  if isBlank b.employeeId then (400, .err "employeeId required", db)
  else
    let alert : Alert :=
      { _id := alertId, employeeId := b.employeeId.getD "",
        type := b.type.getD "leak", status := none,
        location := jsOrStr b.location "unknown", timestamp := nowMs }
    (201, .created alert, { db with alerts := db.alerts ++ [alert] })

/-! ## Response bodies as JSON (for the envelope claims) -/

/-- The JSON values the handlers serialize with `res.json`. -/
inductive Json where
  | str (s : String)
  | num (n : Nat)
  | bool (b : Bool)
  | null
  | arr (elems : List Json)
  | obj (fields : List (String × Json))
deriving Repr

/-- Whether a body is a JSON object with a boolean `success` field. -/
def Json.hasSuccessBool : Json → Bool
  | .obj fields =>
      fields.any (fun f => f.1 == "success" &&
        (match f.2 with | .bool _ => true | _ => false))
  | _ => false

/-- Whether a body is a bare JSON array. -/
def Json.isArr : Json → Bool
  | .arr _ => true
  | _ => false

def optStrJson : Option String → Json
  | some s => .str s
  | none => .null

/-- `JSON.stringify` of a stored employee: exactly the keys the handlers
set; `passwordHash` and `updatedAt` are omitted (not `null`) when never
set. -/
def encodeEmployee (e : Employee) : Json :=
  .obj
    ([("_id", .str e._id), ("name", .str e.name), ("email", .str e.email),
      ("role", .str e.role), ("empId", .str e.empId)] ++
     (match e.passwordHash with | some h => [("passwordHash", Json.str h)] | none => []) ++
     [("createdAt", .str e.createdAt), ("lastLogin", optStrJson e.lastLogin),
      ("lastLogout", optStrJson e.lastLogout), ("clockIn", optStrJson e.clockIn),
      ("clockOut", optStrJson e.clockOut), ("status", .str e.status),
      ("alarmTriggered", .bool e.alarmTriggered)] ++
     (match e.updatedAt with | some u => [("updatedAt", Json.str u)] | none => []))

def encodeAlert (a : Alert) : Json :=
  .obj
    ([("_id", .str a._id), ("employeeId", .str a.employeeId), ("type", .str a.type)] ++
     (match a.status with | some s => [("status", Json.str s)] | none => []) ++
     [("location", .str a.location), ("timestamp", .num a.timestamp)])

def registerResponseJson : RegisterResponse → Json
  | .invalid errors => .obj [("success", .bool false), ("errors", .arr (errors.map Json.str))]
  | .conflict m => .obj [("success", .bool false), ("message", .str m)]
  | .ok u =>
      .obj [("success", .bool true),
            ("user", .obj [("_id", .str u._id), ("email", .str u.email),
                           ("role", .str u.role), ("empId", .str u.empId),
                           ("name", .str u.name)])]

def loginResponseJson : LoginResponse → Json
  | .err m => .obj [("success", .bool false), ("message", .str m)]
  | .ok u =>
      .obj [("success", .bool true),
            ("user", .obj [("_id", .str u._id), ("email", .str u.email),
                           ("role", .str u.role), ("empId", .str u.empId),
                           ("name", .str u.name), ("lastLogin", optStrJson u.lastLogin)])]

/-- The `GET /employees` 200 body: `res.json(db.employees || [])`. -/
def employeesResponseJson (db : Db) : Json :=
  .arr ((getEmployees db).2.map encodeEmployee)

def createEmployeeResponseJson : CreateEmployeeResponse → Json
  | .err m => .obj [("success", .bool false), ("message", .str m)]
  | .created e => encodeEmployee e

def patchResponseJson : PatchResponse → Json
  | .notFound m => .obj [("success", .bool false), ("message", .str m)]
  | .ok e => .obj [("success", .bool true), ("employee", encodeEmployee e)]

/-- The `GET /alerts` 200 body: `res.json(alerts)`. -/
def alertsResponseJson (since : Option String) (parseDate : String → Option Nat)
    (db : Db) : Json :=
  .arr ((getAlerts since parseDate db).2.map encodeAlert)

def alertCreateResponseJson : AlertCreateResponse → Json
  | .err m => .obj [("success", .bool false), ("message", .str m)]
  | .created a => encodeAlert a

/-- The `POST /logout` handler: `res.json({ success: true })`. -/
def logout : Nat × Json :=
  (200, .obj [("success", .bool true)])

/-! ## Store invariants and helper lemmas -/

/-- Case-insensitive uniqueness of employee emails (the spec's invariant). -/
def emailsUnique (db : Db) : Prop :=
  (db.employees.map (fun e => jsToLower e.email)).Nodup

theorem patchFirst_eq_none_of (pr : Employee → Bool) (f : Employee → Employee)
    (l : List Employee) (h : ∀ e ∈ l, pr e = false) :
    patchFirst pr f l = none := by
  induction l with
  | nil => rfl
  | cons x xs ih =>
    have hx : pr x = false := h x (by simp)
    simp [patchFirst, hx, ih fun e he => h e (List.mem_cons_of_mem _ he)]

theorem patchFirst_eq_some_decomp (pr : Employee → Bool) (f : Employee → Employee) :
    ∀ (l l' : List Employee) (m : Employee),
      patchFirst pr f l = some (l', m) →
      ∃ l1 e l2, l = l1 ++ e :: l2 ∧ pr e = true ∧ m = f e ∧
        l' = l1 ++ f e :: l2 ∧ ∀ x ∈ l1, pr x = false := by
  intro l
  induction l with
  | nil => intro l' m h; simp [patchFirst] at h
  | cons x xs ih =>
    intro l' m h
    by_cases hx : pr x = true
    · simp [patchFirst, hx] at h
      exact ⟨[], x, xs, rfl, hx, h.2.symm, by simp [h.1.symm], by simp⟩
    · simp only [Bool.not_eq_true] at hx
      cases hrec : patchFirst pr f xs with
      | none => simp [patchFirst, hx, hrec] at h
      | some q =>
        obtain ⟨xl, xm⟩ := q
        obtain ⟨l1, e, l2, hsplit, hpe, hm, hl', hall⟩ := ih xl xm hrec
        simp [patchFirst, hx, hrec] at h
        refine ⟨x :: l1, e, l2, by simp [hsplit], hpe, by rw [← h.2, hm], ?_, ?_⟩
        · rw [← h.1, hl']; simp
        · intro y hy
          rcases List.mem_cons.mp hy with hy | hy
          · simpa [hy] using hx
          · exact hall y hy

theorem findUser_eq_none_iff (em : String) (l : List Employee) :
    findUser em l = none ↔ ∀ e ∈ l, jsToLower e.email ≠ jsToLower em := by
  induction l with
  | nil => simp [findUser]
  | cons x xs ih =>
    by_cases hx : jsToLower x.email = jsToLower em
    · simp [findUser, hx]
    · simp [findUser, hx, ih]

theorem findUser_decomp (em : String) (l : List Employee) (u : Employee)
    (h : findUser em l = some u) (u' : Employee) :
    u ∈ l ∧ jsToLower u.email = jsToLower em ∧
    ∃ l1 l2, l = l1 ++ u :: l2 ∧ setUser em u' l = l1 ++ u' :: l2 ∧
      ∀ e ∈ l1, jsToLower e.email ≠ jsToLower em := by
  induction l with
  | nil => simp [findUser] at h
  | cons x xs ih =>
    by_cases hx : jsToLower x.email = jsToLower em
    · simp [findUser, hx] at h
      subst h
      exact ⟨by simp, hx, [], xs, rfl, by simp [setUser, hx], by simp⟩
    · simp only [findUser, if_neg hx] at h
      obtain ⟨hmem, hkey, l1, l2, hsplit, hset, hall⟩ := ih h
      refine ⟨by simp [hmem], hkey, x :: l1, l2, by simp [hsplit], ?_, ?_⟩
      · simp [setUser, hx, hset]
      · intro e he
        rcases List.mem_cons.mp he with he | he
        · simpa [he] using hx
        · exact hall e he

/-- A successful (201) registration pins down every branch condition and the
exact response and store: the four required fields were non-blank, the email
was free, the response is the five-field summary and the store gains exactly
the one hashed record. -/
theorem register_201_decomp (b : RegisterBody) (db : Db) (uid now : String)
    (h : (register b db uid now).1 = 201) :
    isBlank b.name = false ∧ isBlank b.email = false ∧
    isBlank b.password = false ∧ isBlank b.empId = false ∧
    db.employees.any (fun e => jsToLower e.email == jsToLower (b.email.getD "")) = false ∧
    register b db uid now =
      (201,
       .ok { _id := uid, email := b.email.getD "",
             role := b.role.getD defaultRegisterRole,
             empId := b.empId.getD "", name := b.name.getD "" },
       { db with employees := db.employees ++
           [{ _id := uid, name := b.name.getD "", email := b.email.getD "",
              role := b.role.getD defaultRegisterRole, empId := b.empId.getD "",
              passwordHash := some (hashPassword (b.password.getD "")),
              createdAt := now, lastLogin := none, lastLogout := none,
              clockIn := none, clockOut := none, status := "safe",
              alarmTriggered := false, updatedAt := none }] }) := by
  have hn : isBlank b.name = false := by
    by_contra hc
    simp only [Bool.not_eq_false] at hc
    simp [register, hc] at h
  have he : isBlank b.email = false := by
    by_contra hc
    simp only [Bool.not_eq_false] at hc
    simp [register, hc] at h
  have hp : isBlank b.password = false := by
    by_contra hc
    simp only [Bool.not_eq_false] at hc
    simp [register, hc] at h
  have hi : isBlank b.empId = false := by
    by_contra hc
    simp only [Bool.not_eq_false] at hc
    simp [register, hc] at h
  have hdup : db.employees.any
      (fun e => jsToLower e.email == jsToLower (b.email.getD "")) = false := by
    by_contra hc
    simp only [Bool.not_eq_false] at hc
    simp [register, hn, he, hp, hi, hc] at h
  exact ⟨hn, he, hp, hi, hdup, by simp [register, hn, he, hp, hi, hdup]⟩

/-- A registration either leaves the store untouched (400/409) or, when the
email was free, appends exactly the one new record. -/
theorem register_db_cases (b : RegisterBody) (db : Db) (uid now : String) :
    (register b db uid now).2.2 = db ∨
    (db.employees.any (fun e => jsToLower e.email == jsToLower (b.email.getD "")) = false ∧
     (register b db uid now).2.2 =
       { db with employees := db.employees ++
           [{ _id := uid, name := b.name.getD "", email := b.email.getD "",
              role := b.role.getD defaultRegisterRole, empId := b.empId.getD "",
              passwordHash := some (hashPassword (b.password.getD "")),
              createdAt := now, lastLogin := none, lastLogout := none,
              clockIn := none, clockOut := none, status := "safe",
              alarmTriggered := false, updatedAt := none }] }) := by
  by_cases hn : isBlank b.name = true
  · left; simp [register, hn]
  · by_cases he : isBlank b.email = true
    · left; simp [register, he]
    · by_cases hp : isBlank b.password = true
      · left; simp [register, hp]
      · by_cases hi : isBlank b.empId = true
        · left; simp [register, hi]
        · simp only [Bool.not_eq_true] at hn he hp hi
          by_cases hd : db.employees.any
              (fun e => jsToLower e.email == jsToLower (b.email.getD "")) = true
          · left; simp [register, hn, he, hp, hi, hd]
          · simp only [Bool.not_eq_true] at hd
            exact Or.inr ⟨hd, by simp [register, hn, he, hp, hi, hd]⟩

/-- A login either leaves the store untouched or restamps `lastLogin` on the
first employee whose email matches, changing nothing else. -/
theorem login_db_cases (email password : Option String) (db : Db) (now : String) :
    (login email password db now).2.2 = db ∨
    ∃ u l1 l2, db.employees = l1 ++ u :: l2 ∧
      (login email password db now).2.2 =
        { db with employees := l1 ++ { u with lastLogin := some now } :: l2 } := by
  by_cases hb : (isBlank email || isBlank password) = true
  · left; simp [login, hb]
  · cases hf : findUser (email.getD "") db.employees with
    | none => left; simp [login, hb, hf]
    | some u =>
      by_cases hw : u.passwordHash = some (hashPassword (password.getD ""))
      · obtain ⟨-, -, l1, l2, hsplit, hset, -⟩ :=
          findUser_decomp _ _ _ hf { u with lastLogin := some now }
        refine Or.inr ⟨u, l1, l2, hsplit, ?_⟩
        rw [hw] at hset
        simp [login, hb, hf, hw, hset]
      · left; simp [login, hb, hf, hw]

/-- `POST /alerts` never touches the employees collection. -/
theorem createAlert_employees (b : AlertBody) (db : Db) (aid : String) (ms : Nat) :
    (createAlert b db aid ms).2.2.employees = db.employees := by
  simp only [createAlert]
  split <;> rfl

/-! ## Concrete fixtures for witnesses and counterexamples -/

/-- An employee record as registration would have created it. -/
def wEmp (i em : String) (ph : Option String) (st : String) : Employee :=
  { _id := i, name := "n", email := em, role := "deport-employee",
    empId := "E" ++ i, passwordHash := ph,
    createdAt := "2024-01-01T00:00:00.000Z", lastLogin := none,
    lastLogout := none, clockIn := none, clockOut := none, status := st,
    alarmTriggered := false, updatedAt := none }

def wSafeDb : Db := { employees := [wEmp "u1" "a@x.com" none "safe"], alerts := [] }

def cexLeakDb : Db := { employees := [wEmp "u1" "a@x.com" none "leak"], alerts := [] }

def wRegBody : RegisterBody :=
  { name := some "A", email := some "b@x.com", password := some "p",
    role := none, empId := some "E2" }

def cexRegBody : RegisterBody :=
  { name := some "A", email := some "a@x.com", password := some "p",
    role := none, empId := some "E2" }

def wLoginDb : Db :=
  { employees := [wEmp "u1" "a@x.com" (some (hashPassword "p")) "safe"], alerts := [] }

/-- Two stored employees sharing an email, the first with the hash of `"p"`,
the second with the hash of `"q"` (reachable: register both with distinct
emails, then PATCH the first one's email onto the second — PATCH does not
check duplicates). -/
def cexDupDb : Db :=
  { employees := [wEmp "p1" "a@x.com" (some (hashPassword "p")) "safe",
                  wEmp "q1" "a@x.com" (some (hashPassword "q")) "safe"],
    alerts := [] }

def wAlert (t : Nat) : Alert :=
  { _id := "a", employeeId := "u1", type := "leak", status := none,
    location := "unknown", timestamp := t }

def wAlertDb : Db := { employees := [], alerts := [wAlert 3, wAlert 5, wAlert 9] }

/-! ## The claims -/

/-- **C9.** A `PATCH /employees/:id` whose `:id` matches no stored employee
(neither as `_id` nor as `empId`) answers 404 with the
`{ success: false, message }` envelope and leaves the store — employees and
alerts alike — completely unchanged: no employee modified, no alert
created. -/
theorem patch_unknown_id_404_unchanged (id : String) (p : Patch) (db : Db)
    (aid now : String) (ms : Nat)
    (h : ∀ e ∈ db.employees, e._id ≠ id ∧ e.empId ≠ id) :
    patchEmployee id p db aid now ms =
      (404, .notFound "Employee not found", db) ∧
    patchResponseJson (patchEmployee id p db aid now ms).2.1 =
      .obj [("success", .bool false), ("message", .str "Employee not found")] := by
  have hnone : patchFirst (patchMatches id) (fun e => applyPatch e p now)
      db.employees = none := by
    apply patchFirst_eq_none_of
    intro e he
    obtain ⟨h1, h2⟩ := h e he
    simp only [patchMatches, Bool.or_eq_false_iff, beq_eq_false_iff_ne, ne_eq]
    exact ⟨h1, h2⟩
  constructor
  · simp [patchEmployee, hnone]
  · simp [patchEmployee, hnone, patchResponseJson]

theorem patch_unknown_id_404_unchanged_witness :
    patchEmployee "zzz" Patch.empty wSafeDb "a1" "t1" 7 =
      (404, .notFound "Employee not found", wSafeDb) ∧
    patchResponseJson (patchEmployee "zzz" Patch.empty wSafeDb "a1" "t1" 7).2.1 =
      .obj [("success", .bool false), ("message", .str "Employee not found")] :=
  patch_unknown_id_404_unchanged "zzz" Patch.empty wSafeDb "a1" "t1" 7 (by decide)

/-- **C10.** When the `role` field is omitted from a successful
registration, the created employee's role (and the role in the response
summary) is the single fixed string `"deport-employee"`, the value of the
JS default expression `"truck-driver" && "deport-employee"`. -/
theorem register_default_role_deport_employee (b : RegisterBody) (db : Db)
    (uid now : String) (hrole : b.role = none)
    (h : (register b db uid now).1 = 201) :
    defaultRegisterRole = jsAndStr "truck-driver" "deport-employee" ∧
    defaultRegisterRole = "deport-employee" ∧
    (register b db uid now).2.1 =
      .ok { _id := uid, email := b.email.getD "", role := "deport-employee",
            empId := b.empId.getD "", name := b.name.getD "" } ∧
    (register b db uid now).2.2.employees =
      db.employees ++
        [{ _id := uid, name := b.name.getD "", email := b.email.getD "",
           role := "deport-employee", empId := b.empId.getD "",
           passwordHash := some (hashPassword (b.password.getD "")),
           createdAt := now, lastLogin := none, lastLogout := none,
           clockIn := none, clockOut := none, status := "safe",
           alarmTriggered := false, updatedAt := none }] := by
  obtain ⟨-, -, -, -, -, heq⟩ := register_201_decomp b db uid now h
  have hr : b.role.getD defaultRegisterRole = "deport-employee" := by
    rw [hrole]; rfl
  refine ⟨rfl, rfl, ?_, ?_⟩
  · rw [heq]; simp [hr]
  · rw [heq]; simp [hr]

set_option maxRecDepth 1000000 in
theorem register_default_role_deport_employee_witness :
    (register wRegBody wSafeDb "u2" "t2").1 = 201 ∧
    defaultRegisterRole = "deport-employee" :=
  ⟨by decide,
   (register_default_role_deport_employee wRegBody wSafeDb "u2" "t2" rfl
      (by decide)).2.1⟩

/-- **C5.** After a successful `POST /register`, the `GET /employees`
listing returns the stored records themselves, including the new
employee's `passwordHash` — the SHA-256 hex digest of the supplied
password — even though the `/register` response body was only the
five-field user summary, which carries no hash. -/
theorem employees_list_exposes_passwordHash (b : RegisterBody) (db : Db)
    (uid now : String) (h : (register b db uid now).1 = 201) :
    (getEmployees (register b db uid now).2.2).1 = 200 ∧
    (getEmployees (register b db uid now).2.2).2 =
      db.employees ++
        [{ _id := uid, name := b.name.getD "", email := b.email.getD "",
           role := b.role.getD defaultRegisterRole, empId := b.empId.getD "",
           passwordHash := some (hashPassword (b.password.getD "")),
           createdAt := now, lastLogin := none, lastLogout := none,
           clockIn := none, clockOut := none, status := "safe",
           alarmTriggered := false, updatedAt := none }] ∧
    (register b db uid now).2.1 =
      .ok { _id := uid, email := b.email.getD "",
            role := b.role.getD defaultRegisterRole,
            empId := b.empId.getD "", name := b.name.getD "" } := by
  obtain ⟨-, -, -, -, -, heq⟩ := register_201_decomp b db uid now h
  rw [heq]
  exact ⟨rfl, rfl, rfl⟩

set_option maxRecDepth 1000000 in
theorem employees_list_exposes_passwordHash_witness :
    (getEmployees (register wRegBody wSafeDb "u2" "t2").2.2).2 =
      wSafeDb.employees ++
        [{ _id := "u2", name := "A", email := "b@x.com",
           role := defaultRegisterRole, empId := "E2",
           passwordHash := some (hashPassword "p"),
           createdAt := "t2", lastLogin := none, lastLogout := none,
           clockIn := none, clockOut := none, status := "safe",
           alarmTriggered := false, updatedAt := none }] :=
  (employees_list_exposes_passwordHash wRegBody wSafeDb "u2" "t2" (by decide)).2.1

/-- **C7.** `GET /alerts`: a non-empty `since` value that parses as a date
returns exactly the stored alerts whose creation timestamp is ≥ the parsed
value, in store order (a sublist of the store); an omitted, empty or
unparseable `since` returns all stored alerts. -/
theorem getAlerts_since_filter (parse : String → Option Nat) (db : Db) :
    (getAlerts none parse db).2 = db.alerts ∧
    (∀ s, parse s = none → (getAlerts (some s) parse db).2 = db.alerts) ∧
    (getAlerts (some "") parse db).2 = db.alerts ∧
    ∀ s t, s ≠ "" → parse s = some t →
      (∀ a, a ∈ (getAlerts (some s) parse db).2 ↔
         a ∈ db.alerts ∧ a.timestamp ≥ t) ∧
      List.Sublist (getAlerts (some s) parse db).2 db.alerts := by
  refine ⟨rfl, ?_, rfl, ?_⟩
  · intro s hs
    by_cases he : s = ""
    · simp [getAlerts, he]
    · simp [getAlerts, he, hs]
  · intro s t hs ht
    constructor
    · intro a
      simp [getAlerts, hs, ht, List.mem_filter, ge_iff_le, decide_eq_true_eq]
    · simp only [getAlerts, if_neg hs, ht]
      exact List.filter_sublist db.alerts

/-- A fixed toy date parser standing in for `new Date(...)` in witnesses. -/
def wParse (s : String) : Option Nat :=
  if s = "5" then some 5 else none

theorem getAlerts_since_filter_witness :
    List.Sublist (getAlerts (some "5") wParse wAlertDb).2 wAlertDb.alerts ∧
    (getAlerts none wParse wAlertDb).2 = wAlertDb.alerts :=
  ⟨((getAlerts_since_filter wParse wAlertDb).2.2.2 "5" 5
      (by decide) (by decide)).2,
   (getAlerts_since_filter wParse wAlertDb).1⟩

/-- **C1 (amended).** A matched `PATCH /employees/:id` creates exactly one
new alert precisely when the patch body itself carries `status: "leak"`:
the new alert then references the patched record's identifier and takes the
patch's `location` when present and non-empty and `"unknown"` otherwise.
For any other patch body — even one whose merged record keeps an inherited
stored status of `"leak"` — the alerts collection is left unchanged. -/
theorem patch_alert_iff_patch_status_leak (id : String) (p : Patch) (db : Db)
    (aid now : String) (ms : Nat) (merged : Employee)
    (h : (patchEmployee id p db aid now ms).2.1 = .ok merged) :
    (patchEmployee id p db aid now ms).2.2.alerts =
      (if p.status = some "leak" then
         db.alerts ++ [{ _id := aid, employeeId := merged._id, type := "leak",
                         status := some "leak",
                         location := jsOrStr p.location "unknown",
                         timestamp := ms }]
       else db.alerts) := by
  cases hf : patchFirst (patchMatches id) (fun e => applyPatch e p now)
      db.employees with
  | none => simp [patchEmployee, hf] at h
  | some q =>
    obtain ⟨emps, m⟩ := q
    have hm : m = merged := by
      by_cases hs : p.status = some "leak" <;> simpa [patchEmployee, hf, hs] using h
    subst hm
    by_cases hs : p.status = some "leak" <;> simp [patchEmployee, hf, hs]

def cexMergedName : Employee :=
  { wEmp "u1" "a@x.com" none "leak" with name := "x", updatedAt := some "t1" }

/-- **C1 fails as stated.**  First input: the stored employee already has
status `"leak"` and the patch `{ name: "x" }` leaves it in place, so the
merged record has status `"leak"`, the PATCH succeeds — and no alert is
created.  Second input: a patch with `status: "leak"` and the present (but
empty) location `""` yields an alert with location `"unknown"`, not the
patch's location field. -/
theorem patch_merged_leak_no_alert_cex :
    (patchEmployee "u1" { Patch.empty with name := some "x" } cexLeakDb
        "a1" "t1" 7).2.1 = .ok cexMergedName ∧
    cexMergedName.status = "leak" ∧
    (patchEmployee "u1" { Patch.empty with name := some "x" } cexLeakDb
        "a1" "t1" 7).2.2.alerts = [] ∧
    (patchEmployee "u1"
        { Patch.empty with status := some "leak", location := some "" }
        cexLeakDb "a1" "t1" 7).2.2.alerts.map Alert.location = ["unknown"] := by
  refine ⟨by decide, rfl, by decide, by decide⟩

def wLeakPatch : Patch :=
  { Patch.empty with status := some "leak", location := some "loc1" }

def wMergedLeak : Employee :=
  { wEmp "u1" "a@x.com" none "safe" with
      status := "leak", updatedAt := some "t1" }

theorem patch_alert_iff_patch_status_leak_witness :
    (patchEmployee "u1" wLeakPatch wSafeDb "a1" "t1" 7).2.2.alerts =
      (if wLeakPatch.status = some "leak" then
         wSafeDb.alerts ++
           [{ _id := "a1", employeeId := wMergedLeak._id, type := "leak",
              status := some "leak",
              location := jsOrStr wLeakPatch.location "unknown",
              timestamp := 7 }]
       else wSafeDb.alerts) :=
  patch_alert_iff_patch_status_leak "u1" wLeakPatch wSafeDb "a1" "t1" 7
    wMergedLeak (by decide)

/-- **C8 (amended).** Stored identifiers are stable under every operation
except a PATCH whose body itself carries an `_id` key: a PATCH without
`_id` preserves every employee's `_id`; registration, employee creation and
alert creation append one record carrying exactly the generator-supplied
identifier and leave every existing identifier unchanged; login changes no
identifier.  Non-reuse of identifiers therefore holds exactly when the
`makeId` generator never yields the same value twice (its time+randomness
construction gives no hard guarantee). -/
theorem ids_stable_without_id_patch (db : Db) :
    (∀ id p aid now ms, p._id = none →
       (patchEmployee id p db aid now ms).2.2.employees.map Employee._id =
         db.employees.map Employee._id) ∧
    (∀ b uid now,
       (register b db uid now).2.2.employees.map Employee._id =
           db.employees.map Employee._id ∨
       (register b db uid now).2.2.employees.map Employee._id =
           db.employees.map Employee._id ++ [uid]) ∧
    (∀ b uid now,
       (createEmployee b db uid now).2.2.employees.map Employee._id =
           db.employees.map Employee._id ∨
       (createEmployee b db uid now).2.2.employees.map Employee._id =
           db.employees.map Employee._id ++ [uid]) ∧
    (∀ email password now,
       (login email password db now).2.2.employees.map Employee._id =
         db.employees.map Employee._id) ∧
    (∀ b aid ms,
       (createAlert b db aid ms).2.2.employees = db.employees ∧
       ((createAlert b db aid ms).2.2.alerts = db.alerts ∨
        (createAlert b db aid ms).2.2.alerts.map Alert._id =
          db.alerts.map Alert._id ++ [aid])) ∧
    (∀ id p aid now ms,
       (patchEmployee id p db aid now ms).2.2.alerts = db.alerts ∨
       (patchEmployee id p db aid now ms).2.2.alerts.map Alert._id =
         db.alerts.map Alert._id ++ [aid]) := by
  refine ⟨?_, ?_, ?_, ?_, ?_, ?_⟩
  · intro id p aid now ms hpid
    cases hf : patchFirst (patchMatches id) (fun e => applyPatch e p now)
        db.employees with
    | none => simp [patchEmployee, hf]
    | some q =>
      obtain ⟨emps, m⟩ := q
      obtain ⟨l1, e, l2, hsplit, -, -, hl', -⟩ :=
        patchFirst_eq_some_decomp _ _ _ _ _ hf
      have hid : (applyPatch e p now)._id = e._id := by simp [applyPatch, hpid]
      have hmap : emps.map Employee._id = db.employees.map Employee._id := by
        rw [hl', hsplit]
        simp [hid]
      by_cases hs : p.status = some "leak"
      · simp only [patchEmployee, hf, if_pos hs]
        exact hmap
      · simp only [patchEmployee, hf, if_neg hs]
        exact hmap
  · intro b uid now
    rcases register_db_cases b db uid now with h | ⟨-, h⟩
    · left; rw [h]
    · right; rw [h]; simp
  · intro b uid now
    by_cases hv : (isBlank b.name || isBlank b.email || isBlank b.empId) = true
    · left; simp [createEmployee, hv]
    · right; simp [createEmployee, hv]
  · intro email password now
    rcases login_db_cases email password db now with h | ⟨u, l1, l2, hsplit, h⟩
    · rw [h]
    · rw [h]; simp [hsplit]
  · intro b aid ms
    refine ⟨createAlert_employees b db aid ms, ?_⟩
    by_cases hv : isBlank b.employeeId = true
    · left; simp [createAlert, hv]
    · right; simp [createAlert, hv]
  · intro id p aid now ms
    cases hf : patchFirst (patchMatches id) (fun e => applyPatch e p now)
        db.employees with
    | none => left; simp [patchEmployee, hf]
    | some q =>
      obtain ⟨emps, m⟩ := q
      by_cases hs : p.status = some "leak"
      · right; simp [patchEmployee, hf, hs]
      · left; simp [patchEmployee, hf, hs]

/-- **C8 fails as stated.**  The PATCH body may itself contain an `_id`
key; the spread then overwrites the stored identifier: patching employee
`"u1"` with `{ _id: "evil" }` changes its identifier. -/
theorem patch_overwrites_id_cex :
    cexLeakDb.employees.map Employee._id = ["u1"] ∧
    (patchEmployee "u1" { Patch.empty with _id := some "evil" } cexLeakDb
        "a1" "t1" 7).1 = 200 ∧
    (patchEmployee "u1" { Patch.empty with _id := some "evil" } cexLeakDb
        "a1" "t1" 7).2.2.employees.map Employee._id = ["evil"] := by
  refine ⟨rfl, by decide, by decide⟩

theorem ids_stable_without_id_patch_witness :
    (patchEmployee "u1" Patch.empty wSafeDb "a1" "t1" 7).2.2.employees.map
        Employee._id = wSafeDb.employees.map Employee._id :=
  (ids_stable_without_id_patch wSafeDb).1 "u1" Patch.empty "a1" "t1" 7 rfl

/-- **C3 (amended).** For every store in which the shared email is not yet
present (case-insensitively), two `POST /register` requests carrying that
same email (each with name, email, password and empId present) yield, in
whichever order they arrive, exactly one 201 that appends the one new
employee and one 409 conflict that leaves the store unchanged. -/
theorem register_same_email_one_success_one_conflict
    (b1 b2 : RegisterBody) (db : Db) (uid1 t1 uid2 t2 : String)
    (h1n : isBlank b1.name = false) (h1e : isBlank b1.email = false)
    (h1p : isBlank b1.password = false) (h1i : isBlank b1.empId = false)
    (h2n : isBlank b2.name = false) (h2e : isBlank b2.email = false)
    (h2p : isBlank b2.password = false) (h2i : isBlank b2.empId = false)
    (hsame : jsToLower (b1.email.getD "") = jsToLower (b2.email.getD ""))
    (hfresh : db.employees.any
        (fun e => jsToLower e.email == jsToLower (b1.email.getD "")) = false) :
    (register b1 db uid1 t1).1 = 201 ∧
    (register b1 db uid1 t1).2.2.employees =
      db.employees ++
        [{ _id := uid1, name := b1.name.getD "", email := b1.email.getD "",
           role := b1.role.getD defaultRegisterRole, empId := b1.empId.getD "",
           passwordHash := some (hashPassword (b1.password.getD "")),
           createdAt := t1, lastLogin := none, lastLogout := none,
           clockIn := none, clockOut := none, status := "safe",
           alarmTriggered := false, updatedAt := none }] ∧
    (register b1 db uid1 t1).2.2.alerts = db.alerts ∧
    (register b2 (register b1 db uid1 t1).2.2 uid2 t2).1 = 409 ∧
    (register b2 (register b1 db uid1 t1).2.2 uid2 t2).2 =
      (.conflict "Email already registered", (register b1 db uid1 t1).2.2) := by
  obtain ⟨-, -, -, -, -, heq⟩ := register_201_decomp b1 db uid1 t1
      (by simp [register, h1n, h1e, h1p, h1i, hfresh])
  refine ⟨by rw [heq], by rw [heq], by rw [heq], ?_, ?_⟩
  · rw [heq]
    simp [register, h2n, h2e, h2p, h2i, List.any_append, hsame]
  · rw [heq]
    simp [register, h2n, h2e, h2p, h2i, List.any_append, hsame]

/-- **C3 fails as stated** when the store already contains the email: both
registrations answer 409 and no 201 is produced at all. -/
theorem register_existing_email_both_conflict_cex :
    (register cexRegBody wSafeDb "u2" "t2").1 = 409 ∧
    (register cexRegBody (register cexRegBody wSafeDb "u2" "t2").2.2
        "u3" "t3").1 = 409 ∧
    (register cexRegBody wSafeDb "u2" "t2").2.2 = wSafeDb := by
  refine ⟨by decide, by decide, by decide⟩

def wRegBody2 : RegisterBody :=
  { name := some "B", email := some "B@X.com", password := some "q",
    role := some "employee", empId := some "E3" }

set_option maxRecDepth 1000000 in
theorem register_same_email_one_success_one_conflict_witness :
    (register wRegBody wSafeDb "u2" "t2").1 = 201 ∧
    (register wRegBody2 (register wRegBody wSafeDb "u2" "t2").2.2
        "u3" "t3").1 = 409 ∧
    (register wRegBody2 (register wRegBody wSafeDb "u2" "t2").2.2
        "u3" "t3").2.2 = (register wRegBody wSafeDb "u2" "t2").2.2 := by
  obtain ⟨h1, -, -, h4, h5⟩ :=
    register_same_email_one_success_one_conflict wRegBody wRegBody2 wSafeDb
      "u2" "t2" "u3" "t3" (by decide) (by decide) (by decide) (by decide)
      (by decide) (by decide) (by decide) (by decide) (by decide) (by decide)
  exact ⟨h1, h4, by rw [h5]⟩

/-- **C4 (amended).** Case-insensitive email uniqueness is preserved by
`POST /register` (which refuses duplicates), by `POST /login` (which only
restamps `lastLogin` on an existing record) and by `POST /alerts` (which
never touches employees).  It is **not** preserved by `POST /employees` or
`PATCH /employees/:id`, which perform no duplicate-email check. -/
theorem emailsUnique_preserved_register_login_alerts (db : Db)
    (hu : emailsUnique db) :
    (∀ b uid now, emailsUnique (register b db uid now).2.2) ∧
    (∀ email password now, emailsUnique (login email password db now).2.2) ∧
    (∀ b aid ms, emailsUnique (createAlert b db aid ms).2.2) := by
  refine ⟨?_, ?_, ?_⟩
  · intro b uid now
    rcases register_db_cases b db uid now with h | ⟨hfree, h⟩
    · rw [h]; exact hu
    · rw [h]
      have hall : ∀ e ∈ db.employees,
          (jsToLower e.email == jsToLower (b.email.getD "")) = false := by
        intro e he
        by_contra hc
        simp only [Bool.not_eq_false] at hc
        rw [List.any_eq_true.mpr ⟨e, he, hc⟩] at hfree
        cases hfree
      unfold emailsUnique at hu ⊢
      simp only [List.map_append, List.map_cons, List.map_nil]
      rw [List.nodup_append]
      refine ⟨hu, List.nodup_singleton _, ?_⟩
      intro a ha hb
      simp only [List.mem_singleton] at hb
      subst hb
      simp only [List.mem_map] at ha
      obtain ⟨e, he, hee⟩ := ha
      have := hall e he
      rw [beq_eq_false_iff_ne] at this
      exact this hee
  · intro email password now
    rcases login_db_cases email password db now with h | ⟨u, l1, l2, hsplit, h⟩
    · rw [h]; exact hu
    · rw [h]
      unfold emailsUnique at hu ⊢
      rw [hsplit] at hu
      simpa using hu
  · intro b aid ms
    unfold emailsUnique
    rw [createAlert_employees]
    exact hu

def cexDupCreateBody : CreateEmployeeBody :=
  { name := some "B", email := some "A@X.com", role := none, empId := some "E9" }

/-- **C4 fails as stated:** `POST /employees` performs no duplicate-email
check, so creating `"A@X.com"` alongside the stored `"a@x.com"` succeeds
with 201 and breaks the case-insensitive uniqueness invariant. -/
theorem createEmployee_breaks_email_uniqueness_cex :
    emailsUnique wSafeDb ∧
    (createEmployee cexDupCreateBody wSafeDb "u9" "t9").1 = 201 ∧
    ¬ emailsUnique (createEmployee cexDupCreateBody wSafeDb "u9" "t9").2.2 := by
  refine ⟨by unfold emailsUnique; decide, by decide, by unfold emailsUnique; decide⟩

set_option maxRecDepth 1000000 in
theorem emailsUnique_preserved_register_login_alerts_witness :
    emailsUnique (register wRegBody wSafeDb "u2" "t2").2.2 :=
  (emailsUnique_preserved_register_login_alerts wSafeDb
      (by unfold emailsUnique; decide)).1 wRegBody "u2" "t2"

/-- **C2 (amended).** Provided the store's employee emails are pairwise
distinct case-insensitively (the spec's store invariant), a `POST /login`
with both fields present succeeds (200) iff some stored employee's email
equals the supplied email case-insensitively and that employee's stored
`passwordHash` equals the SHA-256 hex digest of the supplied password; in
every other case the response is 400 with the same `"Invalid credentials"`
message whether the email was unknown or the password wrong. -/
theorem login_success_iff_unique_email (email password : Option String)
    (db : Db) (now : String)
    (he : isBlank email = false) (hp : isBlank password = false)
    (hu : emailsUnique db) :
    ((login email password db now).1 = 200 ↔
      ∃ e ∈ db.employees,
        jsToLower e.email = jsToLower (email.getD "") ∧
        e.passwordHash = some (hashPassword (password.getD ""))) ∧
    ((login email password db now).1 ≠ 200 →
      (login email password db now).1 = 400 ∧
      (login email password db now).2.1 = .err "Invalid credentials") := by
  have hb : (isBlank email || isBlank password) = false := by simp [he, hp]
  cases hf : findUser (email.getD "") db.employees with
  | none =>
    have hnone := (findUser_eq_none_iff (email.getD "") db.employees).mp hf
    constructor
    · constructor
      · intro h200
        simp [login, hb, hf] at h200
      · rintro ⟨e, hemem, hekey, -⟩
        exact absurd hekey (hnone e hemem)
    · intro _
      constructor <;> simp [login, hb, hf]
  | some u =>
    obtain ⟨humem, hukey, -⟩ := findUser_decomp (email.getD "") db.employees u hf u
    by_cases hw : u.passwordHash = some (hashPassword (password.getD ""))
    · constructor
      · exact ⟨fun _ => ⟨u, humem, hukey, hw⟩, fun _ => by simp [login, hb, hf, hw]⟩
      · intro hne
        exact absurd (by simp [login, hb, hf, hw]) hne
    · have h400 : (login email password db now).1 = 400 := by
        simp [login, hb, hf, hw]
      constructor
      · constructor
        · intro h200
          rw [h400] at h200
          exact absurd h200 (by decide)
        · rintro ⟨e, hemem, hekey, hehash⟩
          unfold emailsUnique at hu
          have heu : e = u :=
            List.inj_on_of_nodup_map hu hemem humem (by rw [hekey, hukey])
          rw [heu] at hehash
          exact absurd hehash hw
      · exact fun _ => ⟨h400, by simp [login, hb, hf, hw]⟩

set_option maxRecDepth 1000000 in
/-- **C2 fails as stated** on a store with two employees sharing an email
(reachable, since PATCH can overwrite an email with no duplicate check):
`find` checks only the **first** matching employee's hash, so a login
matching the second employee's password is rejected with 400 even though
some stored employee matches both the email and the hash. -/
theorem login_duplicate_email_cex :
    (login (some "a@x.com") (some "q") cexDupDb "t5").1 = 400 ∧
    (wEmp "q1" "a@x.com" (some (hashPassword "q")) "safe") ∈ cexDupDb.employees ∧
    jsToLower (wEmp "q1" "a@x.com" (some (hashPassword "q")) "safe").email =
      jsToLower ((some "a@x.com" : Option String).getD "") ∧
    (wEmp "q1" "a@x.com" (some (hashPassword "q")) "safe").passwordHash =
      some (hashPassword "q") := by
  refine ⟨by decide, by simp [cexDupDb], by decide, rfl⟩

set_option maxRecDepth 1000000 in
theorem login_success_iff_unique_email_witness :
    ((login (some "a@x.com") (some "p") wLoginDb "t5").1 = 200 ↔
      ∃ e ∈ wLoginDb.employees,
        jsToLower e.email = jsToLower ((some "a@x.com" : Option String).getD "") ∧
        e.passwordHash =
          some (hashPassword ((some "p" : Option String).getD ""))) ∧
    ((login (some "a@x.com") (some "p") wLoginDb "t5").1 ≠ 200 →
      (login (some "a@x.com") (some "p") wLoginDb "t5").1 = 400 ∧
      (login (some "a@x.com") (some "p") wLoginDb "t5").2.1 =
        .err "Invalid credentials") :=
  login_success_iff_unique_email (some "a@x.com") (some "p") wLoginDb "t5"
    (by decide) (by decide) (by unfold emailsUnique; decide)

/-- **C6 (amended).** Error responses and the register/login/patch/logout
bodies are JSON objects carrying a boolean `success` — but not every
endpoint follows the envelope: the 200 bodies of `GET /employees` and
`GET /alerts` are bare JSON arrays of records, and the 201 bodies of
`POST /employees` and `POST /alerts` are the bare created record; none of
those carries a `success` field. -/
theorem response_envelope_shapes :
    (∀ r : RegisterResponse, (registerResponseJson r).hasSuccessBool = true) ∧
    (∀ r : LoginResponse, (loginResponseJson r).hasSuccessBool = true) ∧
    (∀ r : PatchResponse, (patchResponseJson r).hasSuccessBool = true) ∧
    logout.2.hasSuccessBool = true ∧
    (∀ db, (employeesResponseJson db).isArr = true ∧
           (employeesResponseJson db).hasSuccessBool = false) ∧
    (∀ since parse db,
       (alertsResponseJson since parse db).isArr = true ∧
       (alertsResponseJson since parse db).hasSuccessBool = false) ∧
    (∀ e : Employee, (encodeEmployee e).hasSuccessBool = false) ∧
    (∀ a : Alert, (encodeAlert a).hasSuccessBool = false) ∧
    (∀ m, (createEmployeeResponseJson (.err m)).hasSuccessBool = true) ∧
    (∀ e, createEmployeeResponseJson (.created e) = encodeEmployee e) ∧
    (∀ m, (alertCreateResponseJson (.err m)).hasSuccessBool = true) ∧
    (∀ a, alertCreateResponseJson (.created a) = encodeAlert a) := by
  refine ⟨?_, ?_, ?_, rfl, ?_, ?_, ?_, ?_, ?_, ?_, ?_, ?_⟩
  · intro r; cases r <;> rfl
  · intro r; cases r <;> rfl
  · intro r; cases r <;> rfl
  · intro db; exact ⟨rfl, rfl⟩
  · intro since parse db; exact ⟨rfl, rfl⟩
  · intro e
    cases hph : e.passwordHash <;> cases hup : e.updatedAt <;>
      simp [encodeEmployee, Json.hasSuccessBool, hph, hup]
  · intro a
    cases hst : a.status <;> simp [encodeAlert, Json.hasSuccessBool, hst]
  · intro m; rfl
  · intro e; rfl
  · intro m; rfl
  · intro a; rfl

/-- **C6 fails as stated:** with an employee stored, the 200 body of
`GET /employees` is a bare JSON array — not an object and with no
`success` field; the 201 body of `POST /employees` is likewise the bare
created record without `success`. -/
theorem employees_list_not_envelope_cex :
    wSafeDb.employees ≠ [] ∧
    (getEmployees wSafeDb).1 = 200 ∧
    (employeesResponseJson wSafeDb).isArr = true ∧
    (employeesResponseJson wSafeDb).hasSuccessBool = false ∧
    (createEmployeeResponseJson
        (createEmployee cexDupCreateBody wSafeDb "u9" "t9").2.1).hasSuccessBool =
      false := by
  refine ⟨by decide, rfl, rfl, by decide, by decide⟩
